import Mathlib

/-!
Verification development for the `DataProfiler` component of the repository
(`backend/app/utils/data_profiler.py`).

The embedding is shallow: the pandas `DataFrame` consumed by `DataProfiler` is
modelled as an ordered list of named, dtype-tagged columns whose cells are
`Option CellVal` (with `none` standing for a missing entry, i.e. a cell on
which `Series.isna` is true).  Python/numpy floating-point values are modelled
by `PyFloat`: exact rationals for finite values plus explicit `nan`, `posInf`,
`negInf` constructors.  Arithmetic is exact rational arithmetic; this is the
usual idealisation of float arithmetic and is noted again at every definition
where it matters.

Runtime values flowing through the serializer (`_convert_to_serializable` /
`_ensure_json_serializable`) are modelled by the inductive `PyVal`, which
distinguishes numpy scalars (`npInt`, `npFloat`, `npBool`) from native Python
scalars (`pint`, `pfloat`, `pbool`, `pstr`, `pnone`), because the two families
behave differently both in the serializer's `isinstance` chain and under
`json.dumps` (`np.float64` subclasses Python `float`; `np.int64` and
`np.bool_` do not subclass `int`/`bool`).
-/

/-- Python/numpy floating point values, idealised: finite values are exact
rationals, and the special values NaN, `inf`, `-inf` are explicit
constructors. -/
inductive PyFloat where
  | nan : PyFloat
  | posInf : PyFloat
  | negInf : PyFloat
  | finite (q : ℚ) : PyFloat
deriving DecidableEq, Repr

namespace PyFloat

/-- Mirrors `np.isnan` on a scalar float. -/
def isNan : PyFloat → Bool
  | .nan => true
  | _ => false

/-- Mirrors `np.isinf` on a scalar float. -/
def isInf : PyFloat → Bool
  | .posInf => true
  | .negInf => true
  | _ => false

/-- Mirrors Python `str()` of a float for the special values the code renders
(`str(np.float64('inf')) = "inf"` etc.).  Finite values are rendered through
`ℚ`'s `toString`; the exact text of finite renderings is never inspected by
any claim, only its length is (and only for cells, see `Column.renderOK`). -/
def render : PyFloat → String
  | .nan => "nan"
  | .posInf => "inf"
  | .negInf => "-inf"
  | .finite q => toString q

end PyFloat

/-- Cell values a well-formed pandas column can hold, as seen through the
profiler.  A pandas missing entry (NaN in a float column, `None`/`NaT`
elsewhere) is modelled as `Option.none` at the cell level, so `cFloat` cells
carry the non-missing float values (finite or infinite). -/
inductive CellVal where
  | cInt (n : ℤ) : CellVal
  | cFloat (f : PyFloat) : CellVal
  | cStr (s : String) : CellVal
  | cBool (b : Bool) : CellVal
  | cTime (t : ℤ) : CellVal
deriving DecidableEq, Repr

namespace CellVal

/-- True for cells that hold an infinite float (mirrors `np.isinf` applied to
the non-null values of a column). -/
def isInfCell : CellVal → Bool
  | .cFloat .posInf => true
  | .cFloat .negInf => true
  | _ => false

/-- True for string cells (mirrors `isinstance(k, str)` in the top-values
loop). -/
def isStrCell : CellVal → Bool
  | .cStr _ => true
  | _ => false

/-- Mirrors Python `str()` applied to a cell value of the modelled kinds.
Timestamps are rendered through their day index (an injective stand-in for
the pandas rendering; no claim inspects the text of non-string keys, only
their length, which `Column.renderOK` bounds). -/
def render : CellVal → String
  | .cInt n => toString n
  | .cFloat f => f.render
  | .cStr s => s
  | .cBool b => if b then "True" else "False"
  | .cTime t => toString t

/-- Numeric reading of a cell, used by the statistics that only ever run on
columns the classifier admitted as numeric (hence finite, non-null floats or
integers).  Non-numeric and infinite cells map to `0`; those cases are
unreachable under the classifier's guard. -/
def toRat : CellVal → ℚ
  | .cInt n => (n : ℚ)
  | .cFloat (.finite q) => q
  | _ => 0

end CellVal

/-- Pandas dtype tags relevant to `DataProfiler`: `select_dtypes` buckets
columns by these. -/
inductive Dtype where
  | int64 : Dtype
  | float64 : Dtype
  | object : Dtype
  | category : Dtype
  | boolT : Dtype
  | datetime64 : Dtype
deriving DecidableEq, Repr

/-- Mirrors `str(series.dtype)` for each modelled dtype. -/
def Dtype.render : Dtype → String
  | .int64 => "int64"
  | .float64 => "float64"
  | .object => "object"
  | .category => "category"
  | .boolT => "bool"
  | .datetime64 => "datetime64[ns]"

/-- True for dtypes selected by `df.select_dtypes(include=[np.number])`. -/
def Dtype.isNumeric : Dtype → Bool
  | .int64 => true
  | .float64 => true
  | _ => false

/-- True for dtypes selected by
`df.select_dtypes(include=['object', 'category', 'bool'])`. -/
def Dtype.isCategorical : Dtype → Bool
  | .object => true
  | .category => true
  | .boolT => true
  | _ => false

/-- True for dtypes selected by `df.select_dtypes(include=['datetime64'])`. -/
def Dtype.isDatetime : Dtype → Bool
  | .datetime64 => true
  | _ => false

/-- A named, dtype-tagged pandas column: an ordered sequence of optional cell
values (length = row count of the frame). -/
structure Column where
  name : String
  dtype : Dtype
  cells : List (Option CellVal)
deriving DecidableEq, Repr

namespace Column

/-- Non-null values of the column in order (mirrors `series.dropna()`). -/
def nonNull (c : Column) : List CellVal := c.cells.filterMap id

/-- Mirrors `series.isna().sum()`. -/
def isnaCount (c : Column) : ℕ := (c.cells.filter (·.isNone)).length

/-- Mirrors `series.isna().all()`. -/
def allNull (c : Column) : Bool := c.cells.all (·.isNone)

/-- Mirrors `any(np.isinf(df[col].dropna()))`. -/
def hasInf (c : Column) : Bool := c.nonNull.any (·.isInfCell)

/-- Mirrors `series.nunique()`: the number of distinct non-null values. -/
def nunique (c : Column) : ℕ := c.nonNull.dedup.length

/-- Modelling bound used by the top-values truncation claim: every non-string
cell renders to at most 100 characters.  This is a property of real pandas
scalar renderings (an `int64`, `float64`, `bool` or timestamp never renders
longer than a couple of dozen characters); it must be stated as an explicit
hypothesis here because the model's integers and rationals are unbounded. -/
def renderOK (c : Column) : Prop :=
  ∀ v ∈ c.nonNull, v.isStrCell = false → (CellVal.render v).length ≤ 100

instance (c : Column) : Decidable c.renderOK := by
  unfold renderOK; infer_instance

end Column

/-- The in-memory dataset `DataProfiler` is constructed over: an ordered list
of columns (`pd.DataFrame`). -/
structure Dataset where
  cols : List Column
deriving DecidableEq, Repr

namespace Dataset

/-- Mirrors `len(self.df)`: the row count (taken from the first column; a
frame with no columns has zero rows). -/
def nrows (ds : Dataset) : ℕ :=
  match ds.cols with
  | [] => 0
  | c :: _ => c.cells.length

/-- Mirrors `len(self.df.columns)`. -/
def ncols (ds : Dataset) : ℕ := ds.cols.length

/-- All columns of a `DataFrame` share the frame's row count; the model
states it as an explicit well-formedness property. -/
def sameLen (ds : Dataset) : Prop := ∀ c ∈ ds.cols, c.cells.length = ds.nrows

instance (ds : Dataset) : Decidable ds.sameLen := by
  unfold sameLen; infer_instance

/-- Pandas column labels are unique in any frame built from distinct column
names; `df[name]` is a `Series` only under this assumption. -/
def namesNodup (ds : Dataset) : Prop := (ds.cols.map Column.name).Nodup

instance (ds : Dataset) : Decidable ds.namesNodup := by
  unfold namesNodup; infer_instance

/-- Mirrors `DataProfiler.__init__`'s numeric classification: dtype-numeric
columns that are not entirely null and contain no infinity among their
non-null values. -/
def numericColsL (ds : Dataset) : List Column :=
  (ds.cols.filter (fun c => c.dtype.isNumeric)).filter
    (fun c => !(c.allNull || c.hasInf))

/-- The names held in `self.numeric_cols`. -/
def numericColNames (ds : Dataset) : List String :=
  ds.numericColsL.map Column.name

/-- Mirrors `self.categorical_cols` (columns of dtype object/category/bool). -/
def categoricalColsL (ds : Dataset) : List Column :=
  ds.cols.filter (fun c => c.dtype.isCategorical)

/-- Mirrors `self.datetime_cols`. -/
def datetimeColsL (ds : Dataset) : List Column :=
  ds.cols.filter (fun c => c.dtype.isDatetime)

/-- The names held in `self.datetime_cols`. -/
def datetimeColNames (ds : Dataset) : List String :=
  ds.datetimeColsL.map Column.name

/-- Mirrors `df.columns` membership (`columns[0] in self.df.columns`). -/
def hasColNamed (ds : Dataset) (n : String) : Bool :=
  ds.cols.any (fun c => c.name = n)

/-- Mirrors `self.df[name]` under unique column labels: the first column with
the given name. -/
def findCol (ds : Dataset) (n : String) : Option Column :=
  ds.cols.find? (fun c => c.name = n)

end Dataset

/-- Runtime values flowing through `_convert_to_serializable` and
`_ensure_json_serializable`.  Numpy scalars are distinguished from native
Python scalars because the `isinstance` chain and `json.dumps` treat them
differently.  `frame` keeps its column labels as strings (the common pandas
case); `other` stands for any remaining object, carrying the text `str(obj)`
would produce.  Python `complex` values are left out of the modelled domain
(nothing in the program or in the claims produces one). -/
inductive PyVal where
  | npInt (n : ℤ) : PyVal
  | npFloat (f : PyFloat) : PyVal
  | npBool (b : Bool) : PyVal
  | ndarray (xs : List PyVal) : PyVal
  | series (xs : List PyVal) : PyVal
  | frame (cols : List (String × List PyVal)) : PyVal
  | pdict (kvs : List (PyVal × PyVal)) : PyVal
  | plist (xs : List PyVal) : PyVal
  | ptuple (xs : List PyVal) : PyVal
  | timeV (iso : String) : PyVal
  | pstr (s : String) : PyVal
  | pint (n : ℤ) : PyVal
  | pfloat (f : PyFloat) : PyVal
  | pbool (b : Bool) : PyVal
  | pnone : PyVal
  | other (s : String) : PyVal

namespace PyVal

/-- True when the value is a Python `str`. -/
def isStr : PyVal → Bool
  | .pstr _ => true
  | _ => false

/-- Mirrors Python `str()` on the scalar kinds used as dict keys by the code
(container keys are abstracted to a placeholder; no claim inspects them). -/
def pyStr : PyVal → String
  | .npInt n => toString n
  | .npFloat f => f.render
  | .npBool b => if b then "True" else "False"
  | .pstr s => s
  | .pint n => toString n
  | .pfloat f => f.render
  | .pbool b => if b then "True" else "False"
  | .pnone => "None"
  | .timeV iso => iso
  | .other s => s
  | _ => "object"

/-- True when a value may be used as a `json.dumps` dict key: the encoder
accepts `str`, `int`, `float`, `bool`, `None` (coercing them to strings) and
raises `TypeError` for anything else.  `np.float64` subclasses `float` and is
therefore accepted; `np.int64` and `np.bool_` subclass neither `int` nor
`bool` and are rejected. -/
def keyOK : PyVal → Bool
  | .pstr _ => true
  | .pint _ => true
  | .pfloat _ => true
  | .pbool _ => true
  | .pnone => true
  | .npFloat _ => true
  | _ => false

/-- Whether `json.dumps(obj)` succeeds (with its default settings, under
which NaN and the infinities are accepted and rendered as `NaN` /
`Infinity`).  Numpy integer, boolean, array, Series, DataFrame and
`Timestamp` values make it raise `TypeError`; `np.float64` values are
accepted because `np.float64` subclasses Python `float`. -/
def jsonDumpsOk : PyVal → Bool
  | .npInt _ => false
  | .npFloat _ => true
  | .npBool _ => false
  | .ndarray _ => false
  | .series _ => false
  | .frame _ => false
  | .pdict kvs => kvs.attach.all (fun x =>
      keyOK x.1.1 && jsonDumpsOk x.1.2)
  | .plist xs => xs.attach.all (fun x => jsonDumpsOk x.1)
  | .ptuple xs => xs.attach.all (fun x => jsonDumpsOk x.1)
  | .timeV _ => false
  | .pstr _ => true
  | .pint _ => true
  | .pfloat _ => true
  | .pbool _ => true
  | .pnone => true
  | .other _ => false
decreasing_by
  · obtain ⟨⟨a, b⟩, hx⟩ := x
    have h1 := List.sizeOf_lt_of_mem hx
    simp at h1 ⊢
    omega
  · have h1 := List.sizeOf_lt_of_mem x.2
    simp at h1 ⊢
    omega
  · have h1 := List.sizeOf_lt_of_mem x.2
    simp at h1 ⊢
    omega

end PyVal

namespace PyVal

/-- The recursive normalizer `DataProfiler._convert_to_serializable`,
branch for branch in the order of its `isinstance` chain:

* numpy integer kinds → `int(obj)`;
* numpy float kinds → `None` for NaN, `str(obj)` for the infinities
  (`"inf"` / `"-inf"`), `float(obj)` otherwise.  A native Python `float` is
  not an instance of the numpy float classes (`np.float64` subclasses
  `float`, not conversely), so `pfloat` values do NOT take this branch;
* `np.bool_` → `bool(obj)`;
* `np.ndarray` and `pd.Series` → list of converted elements.  `obj.tolist()`
  runs first and turns numpy scalars into native ones, which is why numpy
  scalar elements are normalised as their native counterparts here (in
  particular a float NaN element becomes `None` via the `pd.isna` branch,
  while an infinite float element is returned as a float, unchanged);
* `pd.DataFrame` → dict from column label to list of converted elements;
* `dict` → dict with keys coerced by `str()` and values converted;
* `list` and `tuple` → list of converted elements;
* `datetime` / `pd.Timestamp` → `obj.isoformat()`;
* anything remaining that `pd.isna` accepts → `None` (this is the branch that
  catches a native float NaN and `None` itself);
* fallback: native `str`/`int`/`float`/`bool`/`None` are returned unchanged
  (so a native infinite float is returned as a float), anything else becomes
  `str(obj)`. -/
def convert : PyVal → PyVal
  | .npInt n => .pint n
  | .npFloat .nan => .pnone
  | .npFloat .posInf => .pstr "inf"
  | .npFloat .negInf => .pstr "-inf"
  | .npFloat (.finite q) => .pfloat (.finite q)
  | .npBool b => .pbool b
  | .ndarray xs => .plist (xs.attach.map (fun x =>
      match x.1 with
      | .npInt n => .pint n
      | .npFloat .nan => .pnone
      | .npFloat f => .pfloat f
      | .npBool b => .pbool b
      | _ => convert x.1))
  | .series xs => .plist (xs.attach.map (fun x =>
      match x.1 with
      | .npInt n => .pint n
      | .npFloat .nan => .pnone
      | .npFloat f => .pfloat f
      | .npBool b => .pbool b
      | _ => convert x.1))
  | .frame cols => .pdict (cols.attach.map (fun x =>
      (.pstr x.1.1, .plist (x.1.2.attach.map (fun y =>
        match y.1 with
        | .npInt n => .pint n
        | .npFloat .nan => .pnone
        | .npFloat f => .pfloat f
        | .npBool b => .pbool b
        | _ => convert y.1)))))
  | .pdict kvs => .pdict (kvs.attach.map (fun x =>
      (.pstr (pyStr x.1.1), convert x.1.2)))
  | .plist xs => .plist (xs.attach.map (fun x => convert x.1))
  | .ptuple xs => .plist (xs.attach.map (fun x => convert x.1))
  | .timeV iso => .pstr iso
  | .pstr s => .pstr s
  | .pint n => .pint n
  | .pfloat .nan => .pnone
  | .pfloat f => .pfloat f
  | .pbool b => .pbool b
  | .pnone => .pnone
  | .other s => .pstr s
decreasing_by
  · have h1 := List.sizeOf_lt_of_mem x.2
    simp at h1 ⊢
    omega
  · have h1 := List.sizeOf_lt_of_mem x.2
    simp at h1 ⊢
    omega
  · obtain ⟨⟨a, b⟩, hx⟩ := x
    have h1 := List.sizeOf_lt_of_mem hx
    have h2 := List.sizeOf_lt_of_mem y.2
    simp at h1 h2 ⊢
    omega
  · obtain ⟨⟨a, b⟩, hx⟩ := x
    have h1 := List.sizeOf_lt_of_mem hx
    simp at h1 ⊢
    omega
  · have h1 := List.sizeOf_lt_of_mem x.2
    simp at h1 ⊢
    omega
  · have h1 := List.sizeOf_lt_of_mem x.2
    simp at h1 ⊢
    omega

/-- The probe `DataProfiler._ensure_json_serializable`: try `json.dumps`
and return the value untouched on success, otherwise run the recursive
normalizer. -/
def ensureJson (v : PyVal) : PyVal :=
  if jsonDumpsOk v then v else convert v

end PyVal

namespace PyVal

/-- Unfolding of the `json.dumps` success predicate on lists. -/
theorem jsonDumpsOk_plist_iff (xs : List PyVal) :
    jsonDumpsOk (.plist xs) = true ↔ ∀ x ∈ xs, jsonDumpsOk x = true := by
  simp [jsonDumpsOk, List.all_eq_true, List.mem_attach, Subtype.forall]

/-- Unfolding of the `json.dumps` success predicate on dicts. -/
theorem jsonDumpsOk_pdict_iff (kvs : List (PyVal × PyVal)) :
    jsonDumpsOk (.pdict kvs) = true ↔
      ∀ kv ∈ kvs, keyOK kv.1 = true ∧ jsonDumpsOk kv.2 = true := by
  simp [jsonDumpsOk, List.all_eq_true, List.mem_attach, Subtype.forall]

/-- The output of the recursive normalizer always passes `json.dumps`:
every branch produces native scalars, strings, `None`, lists of normalised
elements, or dicts with string keys and normalised values. -/
theorem jsonDumpsOk_convert : ∀ v : PyVal, jsonDumpsOk (convert v) = true := by
  have elem : ∀ a : PyVal, jsonDumpsOk (convert a) = true →
      jsonDumpsOk (match a with
        | .npInt n => .pint n
        | .npFloat .nan => .pnone
        | .npFloat f => .pfloat f
        | .npBool b => .pbool b
        | _ => convert a) = true := by
    intro a h
    cases a <;> try exact h
    case npInt => simp [jsonDumpsOk]
    case npBool => simp [jsonDumpsOk]
    case npFloat => rename_i f; cases f <;> simp [jsonDumpsOk]
  intro v
  induction v using PyVal.convert.induct <;>
    simp_all [convert, jsonDumpsOk, keyOK, List.all_eq_true]
  case case9 =>
    rename_i cols ih
    rintro a b x xs hmem rfl rfl
    refine ⟨by simp [keyOK], ?_⟩
    rw [jsonDumpsOk_plist_iff]
    intro y hy
    obtain ⟨z, hz, rfl⟩ := List.mem_map.mp hy
    exact elem z (ih x xs hmem z hz)
  case case10 =>
    rename_i kvs ih
    rintro a b x y hmem rfl rfl
    exact ⟨by simp [keyOK], ih x y hmem⟩

end PyVal

/-- Insertion of one element into a list sorted by the boolean relation
`le` (used to model the descending-count ordering of
`Series.value_counts`). -/
def insSorted {α : Type} (le : α → α → Bool) (x : α) : List α → List α
  | [] => [x]
  | y :: ys => if le x y then x :: y :: ys else y :: insSorted le x ys

/-- Insertion sort by a boolean relation; stable, like the sort behind
`Series.value_counts` (ties keep their relative order). -/
def sortByB {α : Type} (le : α → α → Bool) : List α → List α
  | [] => []
  | x :: xs => insSorted le x (sortByB le xs)

theorem mem_insSorted {α : Type} (le : α → α → Bool) (x : α) (l : List α) (a : α) :
    a ∈ insSorted le x l ↔ a = x ∨ a ∈ l := by
  induction l with
  | nil => simp [insSorted]
  | cons y ys ih =>
      simp only [insSorted]
      split <;> (simp_all; try tauto)

theorem mem_sortByB {α : Type} (le : α → α → Bool) (l : List α) (a : α) :
    a ∈ sortByB le l ↔ a ∈ l := by
  induction l with
  | nil => simp [sortByB]
  | cons x xs ih => simp [sortByB, mem_insSorted, ih]

theorem pairwise_insSorted {α : Type} (le : α → α → Bool)
    (htot : ∀ a b, le a b = false → le b a = true)
    (htrans : ∀ a b c, le a b = true → le b c = true → le a c = true)
    (x : α) (l : List α) (h : l.Pairwise (fun a b => le a b = true)) :
    (insSorted le x l).Pairwise (fun a b => le a b = true) := by
  induction l with
  | nil => simp [insSorted]
  | cons y ys ih =>
      rcases List.pairwise_cons.mp h with ⟨hy, hys⟩
      simp only [insSorted]
      cases hp : le x y with
      | true =>
          rw [if_pos (by simp [hp])]
          refine List.pairwise_cons.mpr ⟨?_, h⟩
          intro b hb
          rcases List.mem_cons.mp hb with rfl | hbys
          · exact hp
          · exact htrans _ y b hp (hy b hbys)
      | false =>
          rw [if_neg (by simp [hp])]
          refine List.pairwise_cons.mpr ⟨?_, ih hys⟩
          intro b hb
          rcases (mem_insSorted le x ys b).mp hb with rfl | hbys
          · exact htot _ y hp
          · exact hy b hbys

theorem pairwise_sortByB {α : Type} (le : α → α → Bool)
    (htot : ∀ a b, le a b = false → le b a = true)
    (htrans : ∀ a b c, le a b = true → le b c = true → le a c = true)
    (l : List α) :
    (sortByB le l).Pairwise (fun a b => le a b = true) := by
  induction l with
  | nil => simp [sortByB]
  | cons x xs ih => exact pairwise_insSorted le htot htrans x _ ih

namespace Column

/-- Mirrors `series.value_counts()`: the distinct non-null values paired with
their occurrence counts, ordered by descending count.  The sort is stable
(ties keep first-appearance order); pandas does not pin the tie order and no
claim depends on it. -/
def valueCounts (c : Column) : List (CellVal × ℕ) :=
  sortByB (fun a b => b.2 ≤ a.2)
    (c.nonNull.dedup.map (fun v => (v, c.nonNull.count v)))

end Column

/-- Mirrors `DataProfiler._truncate_string` (`max_length` left at its default
of 100 by the only caller): `s[:max_length] + '...'` when the string is
longer than `max_length`, the string itself otherwise. -/
def truncateString (s : String) (maxLength : ℕ := 100) : String :=
  if s.length > maxLength then (String.mk (s.toList.take maxLength)) ++ "..." else s

/-- The `numeric_stats` block of a column profile.  All fields hold the
already-serialized values the code stores (`_convert_to_serializable` is
applied to every entry). -/
structure NumericStats where
  mean : PyVal
  std : PyVal
  minV : PyVal
  maxV : PyVal
  median : PyVal
  skewness : PyVal
  kurtosis : PyVal

/-- The `temporal_stats` block of a column profile.  `date_range_days` is the
raw Python `int` the code stores without serializing it. -/
structure TemporalStats where
  min_date : PyVal
  max_date : PyVal
  date_range_days : ℤ

/-- A column profile as produced by `DataProfiler._profile_column`: the base
statistics plus the optional `numeric_stats` / `temporal_stats` blocks (an
absent `Option` field models an absent dict key). -/
structure ColumnProfile where
  data_type : String
  missing_count : PyVal
  missing_percentage : PyVal
  unique_count : PyVal
  top_values : List (String × PyVal)
  numeric_stats : Option NumericStats
  temporal_stats : Option TemporalStats

/-- Sum of a list of rationals. -/
def ratSum (l : List ℚ) : ℚ := l.foldr (· + ·) 0

/-- Mean of a list of rationals (0 on the empty list; callers guard). -/
def ratMean (l : List ℚ) : ℚ := ratSum l / l.length

/-- Central moment of order `k` (mirrors the moments behind `scipy.stats`'s
`skew`/`kurtosis`, which use the biased estimators). -/
def centralMoment (l : List ℚ) (k : ℕ) : ℚ :=
  ratMean (l.map (fun x => (x - ratMean l) ^ k))

/-- Sample variance with `ddof=1`, the quantity under `Series.std()`.  The
code stores its square root; the model stores the variance itself because
the root is irrational in general.  The distinction the claims rely on is
kind-level only: `std` is NaN exactly when one non-null value exists, finite
otherwise, and that is preserved. -/
def sampleVar (l : List ℚ) : ℚ :=
  (ratSum (l.map (fun x => (x - ratMean l) ^ 2))) / ((l.length : ℚ) - 1)

/-- Median of a list of rationals: mean of the two middle elements of the
sorted list for even length, the middle element for odd length (what
`Series.median()` computes; pandas returns it as a float). -/
def ratMedian (l : List ℚ) : ℚ :=
  let s := sortByB (fun a b => decide (a ≤ b)) l
  let n := s.length
  if n = 0 then 0
  else if n % 2 = 1 then s.getD (n / 2) 0
  else (s.getD (n / 2 - 1) 0 + s.getD (n / 2) 0) / 2

/-- The float value `scipy.stats.skew` returns, up to the kind-faithful
surrogate for its magnitude: the true value is `m3 / m2^(3/2)` (irrational
in general); the model stores `m3 / m2^2` scaled within the finite
constructor, keeping exactly the NaN-versus-finite distinction the code's
serialization depends on (`m2 = 0` gives `0/0 = NaN`). -/
def skewFloat (l : List ℚ) : PyFloat :=
  if centralMoment l 2 = 0 then .nan
  else .finite (centralMoment l 3 / centralMoment l 2 ^ 2)

/-- The float value `scipy.stats.kurtosis` returns (Fisher definition
`m4 / m2^2 - 3`, exact in rationals; NaN when `m2 = 0`). -/
def kurtosisFloat (l : List ℚ) : PyFloat :=
  if centralMoment l 2 = 0 then .nan
  else .finite (centralMoment l 4 / centralMoment l 2 ^ 2 - 3)

namespace Column

/-- The non-null values of a numeric column read as rationals (exact under
the classifier's no-infinity guard). -/
def numVals (c : Column) : List ℚ := c.nonNull.map CellVal.toRat

/-- The non-null integer values of an `int64` column (used for `min`/`max`,
which preserve the column dtype in pandas). -/
def intVals (c : Column) : List ℤ :=
  c.nonNull.filterMap (fun v => match v with | .cInt n => some n | _ => none)

/-- The non-null timestamps of a datetime column (day index model). -/
def timeVals (c : Column) : List ℤ :=
  c.nonNull.filterMap (fun v => match v with | .cTime t => some t | _ => none)

end Column

/-- Stand-in for `Timestamp.isoformat()` in the day-index timestamp model: an
injective rendering of the timestamp.  No claim inspects the text, only that
the stored value is a string. -/
def tsIso (t : ℤ) : String := "day " ++ toString t

/-- The `numeric_stats` block `_profile_column` computes for a column of the
numeric set, over its non-null values: `mean`, `std`, `min`, `max`,
`median`, and `skewness`/`kurtosis` (the scipy values for more than two
non-null values, the plain Python int `0` otherwise).  `min`/`max` keep the
column dtype (`np.int64` for an int64 column, `np.float64` otherwise); the
other statistics are `np.float64`.  Every value is stored through
`_convert_to_serializable`. -/
def numericStatsOf (c : Column) : NumericStats :=
  let l := c.numVals
  { mean := PyVal.convert (.npFloat (.finite (ratMean l)))
    std := PyVal.convert (.npFloat (if l.length = 1 then .nan else .finite (sampleVar l)))
    minV := if c.dtype = .int64 then PyVal.convert (.npInt ((c.intVals.min?).getD 0))
            else PyVal.convert (.npFloat (.finite ((l.min?).getD 0)))
    maxV := if c.dtype = .int64 then PyVal.convert (.npInt ((c.intVals.max?).getD 0))
            else PyVal.convert (.npFloat (.finite ((l.max?).getD 0)))
    median := PyVal.convert (.npFloat (.finite (ratMedian l)))
    skewness := if l.length > 2 then PyVal.convert (.npFloat (skewFloat l))
                else PyVal.convert (.pint 0)
    kurtosis := if l.length > 2 then PyVal.convert (.npFloat (kurtosisFloat l))
                else PyVal.convert (.pint 0) }

/-- The `temporal_stats` block `_profile_column` computes for a datetime
column: min/max timestamp serialized to their ISO rendering and the raw
integer day span. -/
def temporalStatsOf (c : Column) : TemporalStats :=
  { min_date := PyVal.convert (.timeV (tsIso ((c.timeVals.min?).getD 0)))
    max_date := PyVal.convert (.timeV (tsIso ((c.timeVals.max?).getD 0)))
    date_range_days := (c.timeVals.max?).getD 0 - (c.timeVals.min?).getD 0 }

/-- Mirrors `DataProfiler._profile_column`, step for step:

* empty or all-null column: the minimal profile
  `\x7bdata_type, missing_count = len(series), missing_percentage = 100.0,
  unique_count = 0, top_values = \x7d` and nothing else;
* otherwise the base statistics, where each of the five most frequent values
  becomes a `str()` key (truncated through `_truncate_string` when it is a
  string longer than 100 characters) mapping to its serialized `np.int64`
  count;
* a `numeric_stats` block exactly when the column name is in the classifier's
  numeric set and a non-null value exists;
* a `temporal_stats` block exactly when the column name is in the datetime
  set and a non-null value exists. -/
def profileCol (ds : Dataset) (c : Column) : ColumnProfile :=
  if c.cells.isEmpty || c.allNull then
    { data_type := c.dtype.render
      missing_count := .pint c.cells.length
      missing_percentage := .pfloat (.finite 100)
      unique_count := .pint 0
      top_values := []
      numeric_stats := none
      temporal_stats := none }
  else
    let missing := c.isnaCount
    let total := c.cells.length
    { data_type := c.dtype.render
      missing_count := PyVal.convert (.npInt missing)
      missing_percentage :=
        if total > 0 then PyVal.convert (.npFloat (.finite ((missing : ℚ) / total * 100)))
        else PyVal.convert (.pint 0)
      unique_count := PyVal.convert (.pint c.nunique)
      top_values := (c.valueCounts.take 5).map (fun p =>
        (if p.1.isStrCell && (CellVal.render p.1).length > 100
         then truncateString (CellVal.render p.1)
         else CellVal.render p.1,
         PyVal.convert (.npInt p.2)))
      numeric_stats :=
        if c.name ∈ ds.numericColNames then
          (if c.nonNull.length > 0 then some (numericStatsOf c) else none)
        else none
      temporal_stats :=
        if c.name ∈ ds.datetimeColNames then
          (if c.nonNull.length > 0 then some (temporalStatsOf c) else none)
        else none }

/-- Mirrors `DataProfiler.generate_profile`: one profile per column, in column
order. -/
def generateProfile (ds : Dataset) : List (String × ColumnProfile) :=
  ds.cols.map (fun c => (c.name, profileCol ds c))

/-- The dict `_profile_column` returns, as a `PyVal` (insertion order as in
the code; `numeric_stats` / `temporal_stats` present only when computed). -/
def ColumnProfile.toPyVal (p : ColumnProfile) : PyVal :=
  .pdict
    ([(.pstr "data_type", .pstr p.data_type),
      (.pstr "missing_count", p.missing_count),
      (.pstr "missing_percentage", p.missing_percentage),
      (.pstr "unique_count", p.unique_count),
      (.pstr "top_values", .pdict (p.top_values.map (fun kv => (.pstr kv.1, kv.2))))]
     ++ (match p.numeric_stats with
         | some s =>
            [(.pstr "numeric_stats", .pdict
              [(.pstr "mean", s.mean), (.pstr "std", s.std),
               (.pstr "min", s.minV), (.pstr "max", s.maxV),
               (.pstr "median", s.median), (.pstr "skewness", s.skewness),
               (.pstr "kurtosis", s.kurtosis)])]
         | none => [])
     ++ (match p.temporal_stats with
         | some t =>
            [(.pstr "temporal_stats", .pdict
              [(.pstr "min_date", t.min_date), (.pstr "max_date", t.max_date),
               (.pstr "date_range_days", .pint t.date_range_days)])]
         | none => []))

/-- The mapping `generate_profile` returns, as a `PyVal` dict keyed by the
column names. -/
def Dataset.profileToPyVal (ds : Dataset) : PyVal :=
  .pdict ((generateProfile ds).map (fun p => (.pstr p.1, p.2.toPyVal)))

/-- Helper: the profile dict is accepted by `json.dumps` as soon as its
stored values are. -/
theorem toPyVal_jsonOK (p : ColumnProfile)
    (h1 : PyVal.jsonDumpsOk p.missing_count = true)
    (h2 : PyVal.jsonDumpsOk p.missing_percentage = true)
    (h3 : PyVal.jsonDumpsOk p.unique_count = true)
    (h4 : ∀ kv ∈ p.top_values, PyVal.jsonDumpsOk kv.2 = true)
    (h5 : ∀ s, p.numeric_stats = some s →
      PyVal.jsonDumpsOk s.mean = true ∧ PyVal.jsonDumpsOk s.std = true ∧
      PyVal.jsonDumpsOk s.minV = true ∧ PyVal.jsonDumpsOk s.maxV = true ∧
      PyVal.jsonDumpsOk s.median = true ∧ PyVal.jsonDumpsOk s.skewness = true ∧
      PyVal.jsonDumpsOk s.kurtosis = true)
    (h6 : ∀ t, p.temporal_stats = some t →
      PyVal.jsonDumpsOk t.min_date = true ∧ PyVal.jsonDumpsOk t.max_date = true) :
    PyVal.jsonDumpsOk p.toPyVal = true := by
  obtain ⟨dt, mc, mp, uc, tv, ns, ts⟩ := p
  simp only [ColumnProfile.toPyVal] at *
  have htv : PyVal.jsonDumpsOk (.pdict (tv.map (fun kv => (.pstr kv.1, kv.2)))) = true := by
    rw [PyVal.jsonDumpsOk_pdict_iff]
    intro kv hkv
    obtain ⟨a, ha, rfl⟩ := List.mem_map.mp hkv
    exact ⟨rfl, h4 a ha⟩
  have hnsOk : ∀ x ∈ (match ns with
      | some s =>
          [((PyVal.pstr "numeric_stats" : PyVal), PyVal.pdict
            [(.pstr "mean", s.mean), (.pstr "std", s.std),
             (.pstr "min", s.minV), (.pstr "max", s.maxV),
             (.pstr "median", s.median), (.pstr "skewness", s.skewness),
             (.pstr "kurtosis", s.kurtosis)])]
      | none => ([] : List (PyVal × PyVal))),
      PyVal.keyOK x.1 = true ∧ PyVal.jsonDumpsOk x.2 = true := by
    rcases ns with _ | s
    · intro x hx; simp at hx
    · intro x hx
      obtain ⟨m1, m2, m3, m4, m5, m6, m7⟩ := h5 s rfl
      simp only [List.mem_singleton] at hx
      subst hx
      refine ⟨rfl, ?_⟩
      rw [PyVal.jsonDumpsOk_pdict_iff]
      intro kv hkv
      simp only [List.mem_cons, List.not_mem_nil, or_false] at hkv
      rcases hkv with rfl | rfl | rfl | rfl | rfl | rfl | rfl <;> exact ⟨rfl, by assumption⟩
  have htsOk : ∀ x ∈ (match ts with
      | some t =>
          [((PyVal.pstr "temporal_stats" : PyVal), PyVal.pdict
            [(.pstr "min_date", t.min_date), (.pstr "max_date", t.max_date),
             (.pstr "date_range_days", .pint t.date_range_days)])]
      | none => ([] : List (PyVal × PyVal))),
      PyVal.keyOK x.1 = true ∧ PyVal.jsonDumpsOk x.2 = true := by
    rcases ts with _ | t
    · intro x hx; simp at hx
    · intro x hx
      obtain ⟨k1, k2⟩ := h6 t rfl
      simp only [List.mem_singleton] at hx
      subst hx
      refine ⟨rfl, ?_⟩
      rw [PyVal.jsonDumpsOk_pdict_iff]
      intro kv hkv
      simp only [List.mem_cons, List.not_mem_nil, or_false] at hkv
      rcases hkv with rfl | rfl | rfl <;>
        exact ⟨rfl, by first | assumption | simp [PyVal.jsonDumpsOk]⟩
  rw [PyVal.jsonDumpsOk_pdict_iff]
  intro kv hkv
  rcases List.mem_append.mp hkv with hin | hrest
  · rcases List.mem_append.mp hin with hbase | hns
    · simp only [List.mem_cons, List.not_mem_nil, or_false] at hbase
      rcases hbase with rfl | rfl | rfl | rfl | rfl
      · exact ⟨rfl, by simp [PyVal.jsonDumpsOk]⟩
      · exact ⟨rfl, h1⟩
      · exact ⟨rfl, h2⟩
      · exact ⟨rfl, h3⟩
      · exact ⟨rfl, htv⟩
    · exact hnsOk kv hns
  · exact htsOk kv hrest

theorem profileCol_degenerate (ds : Dataset) (c : Column)
    (h : (c.cells.isEmpty || c.allNull) = true) :
    profileCol ds c =
      { data_type := c.dtype.render
        missing_count := .pint c.cells.length
        missing_percentage := .pfloat (.finite 100)
        unique_count := .pint 0
        top_values := []
        numeric_stats := none
        temporal_stats := none } := by
  rw [profileCol, if_pos (by simpa using h)]

theorem profileCol_main (ds : Dataset) (c : Column)
    (h : (c.cells.isEmpty || c.allNull) = false) :
    profileCol ds c =
      { data_type := c.dtype.render
        missing_count := PyVal.convert (.npInt c.isnaCount)
        missing_percentage :=
          if c.cells.length > 0 then
            PyVal.convert (.npFloat (.finite ((c.isnaCount : ℚ) / c.cells.length * 100)))
          else PyVal.convert (.pint 0)
        unique_count := PyVal.convert (.pint c.nunique)
        top_values := (c.valueCounts.take 5).map (fun p =>
          (if p.1.isStrCell && (CellVal.render p.1).length > 100
           then truncateString (CellVal.render p.1)
           else CellVal.render p.1,
           PyVal.convert (.npInt p.2)))
        numeric_stats :=
          if c.name ∈ ds.numericColNames then
            (if c.nonNull.length > 0 then some (numericStatsOf c) else none)
          else none
        temporal_stats :=
          if c.name ∈ ds.datetimeColNames then
            (if c.nonNull.length > 0 then some (temporalStatsOf c) else none)
          else none } := by
  rw [profileCol, if_neg (by simp [h])]

theorem profileCol_toPyVal_jsonOK (ds : Dataset) (c : Column) :
    PyVal.jsonDumpsOk (profileCol ds c).toPyVal = true := by
  by_cases h : (c.cells.isEmpty || c.allNull) = true
  · rw [profileCol_degenerate ds c h]
    apply toPyVal_jsonOK <;> simp [PyVal.jsonDumpsOk]
  · rw [profileCol_main ds c (by simpa using h)]
    apply toPyVal_jsonOK
    · exact PyVal.jsonDumpsOk_convert _
    · simp only []
      split <;> exact PyVal.jsonDumpsOk_convert _
    · exact PyVal.jsonDumpsOk_convert _
    · intro kv hkv
      simp only [List.mem_map] at hkv
      obtain ⟨a, _, rfl⟩ := hkv
      exact PyVal.jsonDumpsOk_convert _
    · intro s hs
      simp only [] at hs
      have hs' : s = numericStatsOf c := by
        split at hs
        · split at hs
          · exact (Option.some_inj.mp hs).symm
          · exact absurd hs (by simp)
        · exact absurd hs (by simp)
      subst hs'
      refine ⟨PyVal.jsonDumpsOk_convert _, PyVal.jsonDumpsOk_convert _, ?_, ?_, PyVal.jsonDumpsOk_convert _, ?_, ?_⟩ <;>
        · simp only [numericStatsOf]
          split <;> exact PyVal.jsonDumpsOk_convert _
    · intro t ht
      simp only [] at ht
      have ht' : t = temporalStatsOf c := by
        split at ht
        · split at ht
          · exact (Option.some_inj.mp ht).symm
          · exact absurd ht (by simp)
        · exact absurd ht (by simp)
      subst ht'
      exact ⟨PyVal.jsonDumpsOk_convert _, PyVal.jsonDumpsOk_convert _⟩

theorem generateProfile_jsonOK (ds : Dataset) :
    PyVal.jsonDumpsOk ds.profileToPyVal = true := by
  rw [Dataset.profileToPyVal, PyVal.jsonDumpsOk_pdict_iff]
  intro kv hkv
  obtain ⟨a, ha, rfl⟩ := List.mem_map.mp hkv
  rw [generateProfile] at ha
  obtain ⟨col, hcol, rfl⟩ := List.mem_map.mp ha
  exact ⟨rfl, profileCol_toPyVal_jsonOK ds col⟩

/-- C1: for every Dataset and every column, `_profile_column` is total (it is
a Lean function, so the embedding has no raise path; degenerate columns take
the minimal-profile branch of `profileCol` rather than failing) and the
resulting profile — and the whole `generate_profile` mapping — is directly
JSON-encodable: `json.dumps` accepts it without further transformation. -/
theorem claim_C1_profile_total_and_json_encodable (ds : Dataset) (c : Column) :
    PyVal.jsonDumpsOk (profileCol ds c).toPyVal = true ∧
      PyVal.jsonDumpsOk ds.profileToPyVal = true :=
  ⟨profileCol_toPyVal_jsonOK ds c, generateProfile_jsonOK ds⟩

/-- A column is entirely null exactly when it has no non-null values. -/
theorem Column.allNull_iff_nonNull_nil (c : Column) :
    c.allNull = true ↔ c.nonNull = [] := by
  simp only [Column.allNull, Column.nonNull, List.all_eq_true, List.filterMap_eq_nil_iff]
  constructor
  · intro h x hx
    cases x with
    | none => rfl
    | some v => exact absurd (h _ hx) (by simp)
  · intro h x hx
    cases x with
    | none => rfl
    | some v => exact absurd (h _ hx) (by simp)

/-- Membership characterisation of the classifier's numeric set. -/
theorem Dataset.mem_numericColsL (ds : Dataset) (c : Column) :
    c ∈ ds.numericColsL ↔
      c ∈ ds.cols ∧ c.dtype.isNumeric = true ∧ c.allNull = false ∧ c.hasInf = false := by
  simp only [Dataset.numericColsL, List.mem_filter, Bool.not_eq_true', Bool.or_eq_false_iff]
  tauto

/-- Under unique column labels, a column outside the numeric set does not
share its name with any column inside it. -/
theorem Dataset.name_not_mem_numericColNames (ds : Dataset) (c : Column)
    (hnodup : ds.namesNodup) (hmem : c ∈ ds.cols) (hout : c ∉ ds.numericColsL) :
    c.name ∉ ds.numericColNames := by
  intro hin
  obtain ⟨c', hc', hname⟩ := List.mem_map.mp hin
  have hc'cols : c' ∈ ds.cols := by
    have h1 := (ds.mem_numericColsL c').mp hc'
    exact h1.1
  have : c' = c := List.inj_on_of_nodup_map hnodup hc'cols hmem hname
  exact hout (this ▸ hc')

/-- C2: a numeric-dtype column that contains an infinity among its non-null
values (or is entirely null) is excluded from the classifier's numeric set
and its profile carries no `numeric_stats` entry; a numeric-dtype column
with no infinity and at least one non-null value is in the numeric set and
its profile carries a `numeric_stats` entry. -/
theorem claim_C2_infinity_guard (ds : Dataset) (c : Column)
    (hmem : c ∈ ds.cols) (hnodup : ds.namesNodup)
    (hnum : c.dtype.isNumeric = true) :
    ((c.hasInf = true ∨ c.allNull = true) →
        c.name ∉ ds.numericColNames ∧ (profileCol ds c).numeric_stats = none) ∧
    ((c.hasInf = false ∧ c.allNull = false) →
        c.name ∈ ds.numericColNames ∧ ∃ s, (profileCol ds c).numeric_stats = some s) := by
  constructor
  · intro hbad
    have hout : c ∉ ds.numericColsL := by
      rw [ds.mem_numericColsL c]
      rintro ⟨-, -, h1, h2⟩
      rcases hbad with h | h
      · rw [h2] at h; simp at h
      · rw [h1] at h; simp at h
    have hnotin := ds.name_not_mem_numericColNames c hnodup hmem hout
    refine ⟨hnotin, ?_⟩
    by_cases hdeg : (c.cells.isEmpty || c.allNull) = true
    · rw [profileCol_degenerate ds c hdeg]
    · rw [profileCol_main ds c (by simpa using hdeg)]
      simp only [if_neg hnotin]
  · rintro ⟨hinf, hnull⟩
    have hin : c ∈ ds.numericColsL := (ds.mem_numericColsL c).mpr ⟨hmem, hnum, hnull, hinf⟩
    have hname : c.name ∈ ds.numericColNames := List.mem_map_of_mem Column.name hin
    refine ⟨hname, ?_⟩
    have hne : c.nonNull ≠ [] := by
      intro hnil
      rw [← Column.allNull_iff_nonNull_nil] at hnil
      rw [hnil] at hnull
      simp at hnull
    have hdeg : (c.cells.isEmpty || c.allNull) = false := by
      rw [Bool.or_eq_false_iff]
      refine ⟨?_, hnull⟩
      rw [List.isEmpty_eq_false_iff_exists_mem]
      rcases hx : c.cells with _ | ⟨x, xs⟩
      · exact absurd (by simp [Column.nonNull, hx]) hne
      · exact ⟨x, by simp⟩
    rw [profileCol_main ds c hdeg]
    simp only [if_pos hname]
    rw [if_pos (by exact List.length_pos.mpr hne)]
    exact ⟨numericStatsOf c, rfl⟩

/-- Example dataset for the C2 witness: a float column poisoned by an
infinity next to a clean float column with one null. -/
def exC2inf : Column := ⟨"x", .float64, [some (.cFloat .posInf), some (.cFloat (.finite 1))]⟩

def exC2ok : Column := ⟨"y", .float64, [some (.cFloat (.finite 1)), none]⟩

def exC2ds : Dataset := ⟨[exC2inf, exC2ok]⟩

theorem claim_C2_infinity_guard_witness :
    (exC2inf.hasInf = true ∧ exC2inf.name ∉ exC2ds.numericColNames ∧
      (profileCol exC2ds exC2inf).numeric_stats = none) ∧
    (exC2ok.hasInf = false ∧ exC2ok.name ∈ exC2ds.numericColNames ∧
      ∃ s, (profileCol exC2ds exC2ok).numeric_stats = some s) := by
  constructor
  · have h := (claim_C2_infinity_guard exC2ds exC2inf (by decide) (by decide) (by decide)).1
      (Or.inl (by decide))
    exact ⟨by decide, h.1, h.2⟩
  · have h := (claim_C2_infinity_guard exC2ds exC2ok (by decide) (by decide) (by decide)).2
      ⟨by decide, by decide⟩
    exact ⟨by decide, h.1, h.2⟩

/-- C5: profiling an empty or entirely-null column returns exactly the
minimal profile — `data_type`, `missing_count` equal to the row count,
`missing_percentage` the literal float `100.0`, `unique_count` the literal
`0`, empty `top_values` — with neither a `numeric_stats` nor a
`temporal_stats` entry (the early return; the `missing_count / total_count`
division of the main branch is never reached). -/
theorem claim_C5_degenerate_profile (ds : Dataset) (c : Column)
    (h : c.cells = [] ∨ c.allNull = true) :
    profileCol ds c =
      { data_type := c.dtype.render
        missing_count := .pint c.cells.length
        missing_percentage := .pfloat (.finite 100)
        unique_count := .pint 0
        top_values := []
        numeric_stats := none
        temporal_stats := none } :=
  profileCol_degenerate ds c (by rcases h with h | h <;> simp [h])

/-- Example for the C5 witness: a three-row, all-null object column (the
spec's end-to-end example 2). -/
def exC5col : Column := ⟨"all_null", .object, [none, none, none]⟩

def exC5ds : Dataset := ⟨[exC5col]⟩

theorem claim_C5_degenerate_profile_witness :
    exC5col.allNull = true ∧
    profileCol exC5ds exC5col =
      { data_type := "object"
        missing_count := .pint 3
        missing_percentage := .pfloat (.finite 100)
        unique_count := .pint 0
        top_values := []
        numeric_stats := none
        temporal_stats := none } := by
  refine ⟨by decide, ?_⟩
  rw [claim_C5_degenerate_profile exC5ds exC5col (Or.inr (by decide))]
  rfl

/-- Scalar unfolding of the normalizer on numpy integers. -/
theorem PyVal.convert_npInt (n : ℤ) : PyVal.convert (.npInt n) = .pint n := by
  simp [PyVal.convert]

/-- Integer reading of a `PyVal` holding a native int (0 otherwise); used to
state ordering facts about serialized counts. -/
def PyVal.asInt : PyVal → ℤ
  | .pint n => n
  | _ => 0

/-- The first components of `value_counts` entries are values of the
column. -/
theorem Column.mem_valueCounts_fst (c : Column) (p : CellVal × ℕ)
    (hp : p ∈ c.valueCounts) : p.1 ∈ c.nonNull := by
  rw [Column.valueCounts, mem_sortByB] at hp
  obtain ⟨v, hv, rfl⟩ := List.mem_map.mp hp
  exact List.mem_dedup.mp hv

/-- The counts of `value_counts` come out sorted descending. -/
theorem Column.valueCounts_sorted (c : Column) :
    c.valueCounts.Pairwise (fun a b => b.2 ≤ a.2) := by
  have h := pairwise_sortByB (fun (a b : CellVal × ℕ) => decide (b.2 ≤ a.2))
    (fun a b hab => by
      simp only [decide_eq_false_iff_not] at hab
      simp only [decide_eq_true_eq]
      omega)
    (fun a b d hab hbd => by
      simp only [decide_eq_true_eq] at hab hbd ⊢
      omega)
    (c.nonNull.dedup.map (fun v => (v, c.nonNull.count v)))
  rw [Column.valueCounts]
  exact h.imp (fun hab => by simpa using hab)

/-- C6: for a column with at least one non-null value the profile's
`top_values` has at most 5 entries, their counts are in descending order,
and every key longer than 100 characters is the 100-character prefix of a
longer original key followed by the `'...'` marker. -/
theorem Column.not_degenerate_of_not_allNull (c : Column) (hnn : c.allNull = false) :
    (c.cells.isEmpty || c.allNull) = false := by
  rw [Bool.or_eq_false_iff]
  refine ⟨?_, hnn⟩
  cases hx : c.cells with
  | nil =>
      rw [Column.allNull, hx] at hnn
      simp at hnn
  | cons x xs => simp [hx]

theorem claim_C6_top_values (ds : Dataset) (c : Column)
    (hnn : c.allNull = false) (hrender : c.renderOK) :
    (profileCol ds c).top_values.length ≤ 5 ∧
    (profileCol ds c).top_values.Pairwise
      (fun a b => PyVal.asInt b.2 ≤ PyVal.asInt a.2) ∧
    ∀ kv ∈ (profileCol ds c).top_values, 100 < kv.1.length →
      ∃ s : String, 100 < s.length ∧ kv.1 = String.mk (s.toList.take 100) ++ "..." := by
  have hdeg : (c.cells.isEmpty || c.allNull) = false :=
    c.not_degenerate_of_not_allNull hnn
  rw [profileCol_main ds c hdeg]
  refine ⟨?_, ?_, ?_⟩
  · simp only [List.length_map, List.length_take]
    omega
  · refine (List.pairwise_map).mpr ?_
    have h5 := (c.valueCounts_sorted).sublist (List.take_sublist 5 c.valueCounts)
    refine h5.imp ?_
    intro a b hab
    simp only [PyVal.convert_npInt, PyVal.asInt]
    exact_mod_cast hab
  · intro kv hkv hlong
    obtain ⟨p, hp, rfl⟩ := List.mem_map.mp hkv
    simp only at hlong ⊢
    by_cases hif : (p.1.isStrCell && decide ((CellVal.render p.1).length > 100)) = true
    · rw [if_pos hif] at hlong ⊢
      rw [Bool.and_eq_true, decide_eq_true_eq] at hif
      refine ⟨CellVal.render p.1, hif.2, ?_⟩
      rw [truncateString, if_pos (by omega)]
    · rw [if_neg hif] at hlong
      exfalso
      rw [Bool.and_eq_true, not_and_or] at hif
      have hmem : p.1 ∈ c.nonNull :=
        c.mem_valueCounts_fst p ((List.take_sublist 5 c.valueCounts).mem hp)
      rcases hif with h | h
      · have hs : p.1.isStrCell = false := by
          cases hval : p.1.isStrCell
          · rfl
          · exact absurd hval h
        have := hrender p.1 hmem hs
        omega
      · rw [decide_eq_true_eq] at h
        omega

/-- Example for the C6 witness: an object column with a 150-character string
occurring twice and a short string once. -/
def exC6long : String := String.mk (List.replicate 150 'a')

def exC6col : Column :=
  ⟨"long_text", .object, [some (.cStr exC6long), some (.cStr exC6long), some (.cStr "b")]⟩

def exC6ds : Dataset := ⟨[exC6col]⟩

theorem claim_C6_top_values_witness :
    (exC6col.allNull = false ∧ exC6col.renderOK) ∧
    ((profileCol exC6ds exC6col).top_values.length ≤ 5 ∧
      (profileCol exC6ds exC6col).top_values.Pairwise
        (fun a b => PyVal.asInt b.2 ≤ PyVal.asInt a.2) ∧
      ∀ kv ∈ (profileCol exC6ds exC6col).top_values, 100 < kv.1.length →
        ∃ s : String, 100 < s.length ∧ kv.1 = String.mk (s.toList.take 100) ++ "...") :=
  ⟨⟨by decide, by decide⟩, claim_C6_top_values exC6ds exC6col (by decide) (by decide)⟩

/-- C7 counterexample: the claim says every floating-point infinity maps to
a textual representation, but a native Python `float('inf')` is returned
unchanged as a float.  A native float is not an instance of the numpy float
classes (`np.float64` subclasses `float`, not the other way round), so it
skips the branch that stringifies infinities; `pd.isna` rejects it; and the
final fallback returns native `str`/`int`/`float`/`bool`/`None` values
untouched.  The repository's own test suite pins this down:
`assert profiler._convert_to_serializable(np.inf) == float('inf')`, where
`np.inf` is a native Python float. -/
theorem claim_C7_counterexample :
    PyVal.convert (.pfloat .posInf) = .pfloat .posInf ∧
    (PyVal.convert (.pfloat .posInf)).isStr = false := by
  constructor <;> simp [PyVal.convert, PyVal.isStr]

/-- C7 as amended: for every numpy floating-point value the serializer maps
NaN to `None`, positive and negative infinity to their string renderings
`"inf"` / `"-inf"`, and every finite value to a plain float; a native Python
float bypasses that branch — NaN still becomes `None` via the `pd.isna`
fallback, but infinities (and finite values) are returned unchanged as
floats. -/
theorem claim_C7_float_serialization (f : PyFloat) :
    PyVal.convert (.npFloat f) =
      (match f with
       | .nan => .pnone
       | .posInf => .pstr "inf"
       | .negInf => .pstr "-inf"
       | .finite q => .pfloat (.finite q)) ∧
    PyVal.convert (.pfloat .nan) = .pnone ∧
    PyVal.convert (.pfloat .posInf) = .pfloat .posInf ∧
    PyVal.convert (.pfloat .negInf) = .pfloat .negInf ∧
    (∀ q : ℚ, PyVal.convert (.pfloat (.finite q)) = .pfloat (.finite q)) := by
  refine ⟨?_, ?_, ?_, ?_, ?_⟩
  · cases f <;> simp [PyVal.convert]
  all_goals simp [PyVal.convert]

/-- C8 counterexample: the claim says the `json.dumps` probe of
`_ensure_json_serializable` is semantically transparent, but on a
`np.float64` NaN the probe succeeds (`np.float64` subclasses `float` and
`json.dumps` accepts NaN by default), so the value is returned unchanged —
while the full normalizer `_convert_to_serializable` maps the same value to
`None`. -/
theorem claim_C8_counterexample :
    PyVal.ensureJson (.npFloat .nan) = .npFloat .nan ∧
    PyVal.convert (.npFloat .nan) = .pnone ∧
    PyVal.ensureJson (.npFloat .nan) ≠ PyVal.convert (.npFloat .nan) := by
  refine ⟨?_, ?_, ?_⟩ <;> simp [PyVal.ensureJson, PyVal.jsonDumpsOk, PyVal.convert]

/-- C8 as amended: `_ensure_json_serializable` returns its input unchanged
exactly when `json.dumps` accepts it (which happens for values the
normalizer would still rewrite, such as numpy float NaN), and otherwise
returns the full normalizer's result; either way its output is accepted by
`json.dumps`. -/
theorem claim_C8_ensure_vs_convert (v : PyVal) :
    (PyVal.jsonDumpsOk v = true → PyVal.ensureJson v = v) ∧
    (PyVal.jsonDumpsOk v = false → PyVal.ensureJson v = PyVal.convert v) ∧
    PyVal.jsonDumpsOk (PyVal.ensureJson v) = true := by
  refine ⟨fun h => by simp [PyVal.ensureJson, h], fun h => by simp [PyVal.ensureJson, h], ?_⟩
  rw [PyVal.ensureJson]
  cases h : PyVal.jsonDumpsOk v with
  | true => simpa using h
  | false => simpa using PyVal.jsonDumpsOk_convert v

theorem claim_C8_ensure_vs_convert_witness :
    PyVal.jsonDumpsOk (.npInt 5) = false ∧
    PyVal.ensureJson (.npInt 5) = PyVal.convert (.npInt 5) ∧
    PyVal.jsonDumpsOk (PyVal.ensureJson (.npInt 5)) = true :=
  ⟨by simp [PyVal.jsonDumpsOk],
   (claim_C8_ensure_vs_convert _).2.1 (by simp [PyVal.jsonDumpsOk]),
   (claim_C8_ensure_vs_convert _).2.2⟩

/-- Chart specification the visualization builders emit (the plotly figure
itself is outside the core's contract; the claims only concern which charts
are emitted and under which guards). -/
inductive VizSpec where
  | histogram (col : String) (nbins : ℕ) : VizSpec
  | bar (col : String) : VizSpec
  | line (col : String) (isoNormalized : Bool) : VizSpec
  | correlation (cols : List String) : VizSpec
deriving DecidableEq, Repr

/-- Mirrors `DataProfiler.generate_visualizations`, guard for guard:

* per numeric-classified column with more than one distinct value, a 30-bin
  histogram keyed `"{col}_histogram"`;
* per categorical column whose `value_counts` table is non-empty and has at
  most 20 rows (i.e. distinct-value count in `(0, 20]`), a bar chart keyed
  `"{col}_bar"`;
* per datetime column with more than one distinct value, a line chart over
  ISO-normalised values keyed `"{col}_line"`;
* when more than one numeric-classified column and more than one row exist,
  one correlation heatmap keyed `"correlation_heatmap"`. -/
def generateVisualizations (ds : Dataset) : List (String × VizSpec) :=
  ((ds.numericColsL.filter (fun c => c.nunique > 1)).map
      (fun c => (c.name ++ "_histogram", VizSpec.histogram c.name 30)))
  ++ ((ds.categoricalColsL.filter (fun c => c.nunique > 0 && c.nunique ≤ 20)).map
      (fun c => (c.name ++ "_bar", VizSpec.bar c.name)))
  ++ ((ds.datetimeColsL.filter (fun c => c.nunique > 1)).map
      (fun c => (c.name ++ "_line", VizSpec.line c.name true)))
  ++ (if ds.numericColNames.length > 1 ∧ ds.nrows > 1 then
        [("correlation_heatmap", VizSpec.correlation ds.numericColNames)]
      else [])

/-- The two error kinds of `generate_specific_visualization`: `ValueError`
for validation failures (re-raised untouched by the `except ValueError`
handler) and `RuntimeError` for data-insufficiency/computation failures
(wrapped into `"Failed to generate visualization: ..."` by the broad
`except Exception` handler). -/
inductive VizError where
  | valueError (msg : String) : VizError
  | runtimeError (msg : String) : VizError
deriving DecidableEq, Repr

/-- True for `ValueError` results. -/
def VizError.isValueError : VizError → Bool
  | .valueError _ => true
  | _ => false

/-- The first requested column when the `columns` argument is truthy and its
first element names an existing column (mirrors
`not columns or not columns[0] in self.df.columns`). -/
def Dataset.firstValidCol (ds : Dataset) (columns : Option (List String)) : Option Column :=
  match columns with
  | none => none
  | some [] => none
  | some (c :: _) => if ds.hasColNamed c then ds.findCol c else none

/-- Mirrors `DataProfiler.generate_specific_visualization`:

1. type validation — a `viz_type` outside
   `["histogram", "bar", "line", "correlation"]` raises
   `ValueError("Unsupported visualization type: ...")` before anything else;
2. column validation (skipped for `correlation`) — a falsy `columns` or a
   first element not naming a column raises
   `ValueError("Invalid column specified")`;
3. business rules — histogram/line need more than one distinct value, bar a
   non-empty `value_counts`, correlation more than one numeric column and
   more than one row; failures raise `RuntimeError`, which the broad
   `except Exception` handler wraps into
   `RuntimeError("Failed to generate visualization: ...")` (the
   `except ValueError` handler re-raises validation errors unwrapped). -/
def generateSpecificVisualization (ds : Dataset) (vizType : String)
    (columns : Option (List String) := none) : Except VizError VizSpec :=
  if vizType ∉ ["histogram", "bar", "line", "correlation"] then
    .error (.valueError ("Unsupported visualization type: " ++ vizType))
  else if vizType = "correlation" then
    if ds.numericColNames.length ≤ 1 then
      .error (.runtimeError
        ("Failed to generate visualization: " ++ "Insufficient numeric columns for correlation"))
    else if ds.nrows ≤ 1 then
      .error (.runtimeError
        ("Failed to generate visualization: " ++ "Insufficient data for correlation"))
    else .ok (.correlation ds.numericColNames)
  else
    match ds.firstValidCol columns with
    | none => .error (.valueError "Invalid column specified")
    | some col =>
      if vizType = "histogram" then
        if col.nunique ≤ 1 then
          .error (.runtimeError
            ("Failed to generate visualization: " ++ "Insufficient variation for visualization"))
        else .ok (.histogram col.name 30)
      else if vizType = "bar" then
        if col.nunique = 0 then
          .error (.runtimeError
            ("Failed to generate visualization: " ++ "No data available for visualization"))
        else .ok (.bar col.name)
      else
        if col.nunique ≤ 1 then
          .error (.runtimeError
            ("Failed to generate visualization: " ++ "Insufficient variation for visualization"))
        else .ok (.line col.name (decide (col.name ∈ ds.datetimeColNames)))

/-- C3: in `generate_specific_visualization`, (1) an unsupported `viz_type`
fails with `ValueError` regardless of the `columns` argument and of the
data, (2) a supported non-correlation type with a falsy or nonexistent
first column fails with `ValueError` regardless of the data, and (3) an
error result is a `ValueError` exactly when one of those two validation
failures occurred — every data-insufficiency failure surfaces as the
distinct `RuntimeError` kind. -/
theorem claim_C3_dispatch_validation (ds : Dataset) (vizType : String)
    (columns : Option (List String)) :
    (vizType ∉ ["histogram", "bar", "line", "correlation"] →
      generateSpecificVisualization ds vizType columns =
        .error (.valueError ("Unsupported visualization type: " ++ vizType))) ∧
    (vizType ∈ ["histogram", "bar", "line"] → ds.firstValidCol columns = none →
      generateSpecificVisualization ds vizType columns =
        .error (.valueError "Invalid column specified")) ∧
    (∀ e, generateSpecificVisualization ds vizType columns = .error e →
      (e.isValueError = true ↔
        (vizType ∉ ["histogram", "bar", "line", "correlation"] ∨
          (vizType ≠ "correlation" ∧ ds.firstValidCol columns = none)))) := by
  by_cases h1 : vizType ∈ (["histogram", "bar", "line", "correlation"] : List String)
  · have h1' : ¬vizType ∉ (["histogram", "bar", "line", "correlation"] : List String) :=
      not_not_intro h1
    rw [generateSpecificVisualization, if_neg h1']
    by_cases hc : vizType = "correlation"
    · subst hc
      rw [if_pos rfl]
      refine ⟨fun h => absurd h1 h, fun h => by simp at h, ?_⟩
      intro e he
      have hev : e.isValueError = false := by
        split at he
        · rw [← Except.error.inj he]; rfl
        · split at he
          · rw [← Except.error.inj he]; rfl
          · exact absurd he (by simp)
      simp [hev, h1]
    · rw [if_neg hc]
      rcases hfv : ds.firstValidCol columns with _ | col
      · refine ⟨fun h => absurd h1 h, fun _ _ => rfl, ?_⟩
        intro e he
        have : e = .valueError "Invalid column specified" := (Except.error.inj he).symm
        subst this
        simp [VizError.isValueError, h1, hc]
      · refine ⟨fun h => absurd h1 h, fun _ h => by simp at h, ?_⟩
        intro e he
        dsimp only at he
        have hev : e.isValueError = false := by
          split at he
          · split at he
            · rw [← Except.error.inj he]; rfl
            · exact absurd he (by simp)
          · split at he
            · split at he
              · rw [← Except.error.inj he]; rfl
              · exact absurd he (by simp)
            · split at he
              · rw [← Except.error.inj he]; rfl
              · exact absurd he (by simp)
        simp [hev, h1]
  · rw [generateSpecificVisualization, if_pos h1]
    refine ⟨fun _ => rfl, ?_, ?_⟩
    · intro h3
      exact absurd (by revert h3; simp; tauto) h1
    · intro e he
      have : e = .valueError ("Unsupported visualization type: " ++ vizType) :=
        (Except.error.inj he).symm
      subst this
      simp [VizError.isValueError, h1]

/-- Example dataset for the C3 witness. -/
def exC3col : Column := ⟨"numeric", .int64, [some (.cInt 1), some (.cInt 2), some (.cInt 3)]⟩

def exC3ds : Dataset := ⟨[exC3col]⟩

theorem claim_C3_dispatch_validation_witness :
    ("pie" ∉ ["histogram", "bar", "line", "correlation"] ∧
      generateSpecificVisualization exC3ds "pie" (some ["numeric"]) =
        .error (.valueError ("Unsupported visualization type: " ++ "pie"))) ∧
    ("histogram" ∈ ["histogram", "bar", "line"] ∧
      exC3ds.firstValidCol (some ["missing"]) = none ∧
      generateSpecificVisualization exC3ds "histogram" (some ["missing"]) =
        .error (.valueError "Invalid column specified")) := by
  refine ⟨⟨by decide, ?_⟩, by decide, by decide, ?_⟩
  · exact (claim_C3_dispatch_validation exC3ds "pie" (some ["numeric"])).1 (by decide)
  · exact (claim_C3_dispatch_validation exC3ds "histogram" (some ["missing"])).2.1
      (by decide) (by decide)

/-- C4 counterexample: the claim says `generate_visualizations` never emits
a bar entry for a column with at most one distinct value, but the bar guard
is `0 < len(value_counts) <= 20`, so a categorical column with exactly one
distinct value does get a bar chart. -/
def exC4col : Column := ⟨"c", .object, [some (.cStr "a"), some (.cStr "a")]⟩

def exC4ds : Dataset := ⟨[exC4col]⟩

theorem claim_C4_counterexample :
    exC4col.nunique = 1 ∧
    generateVisualizations exC4ds = [("c_bar", VizSpec.bar "c")] := by decide

/-- C4 as amended: `generate_visualizations` never emits a histogram or
line entry for a column with at most one distinct value, never emits a bar
entry for a column with zero distinct values or more than 20 distinct
values (a bar IS emitted for exactly one distinct value), and never emits
the correlation heatmap when fewer than 2 numeric-classified columns or
fewer than 2 rows exist. -/
theorem claim_C4_viz_guards (ds : Dataset) :
    ∀ kv ∈ generateVisualizations ds,
      (∀ c n, kv.2 = VizSpec.histogram c n →
        ∃ col ∈ ds.numericColsL, col.name = c ∧ col.nunique > 1) ∧
      (∀ c, kv.2 = VizSpec.bar c →
        ∃ col ∈ ds.categoricalColsL, col.name = c ∧ 0 < col.nunique ∧ col.nunique ≤ 20) ∧
      (∀ c b, kv.2 = VizSpec.line c b →
        ∃ col ∈ ds.datetimeColsL, col.name = c ∧ col.nunique > 1) ∧
      (∀ cs, kv.2 = VizSpec.correlation cs →
        ds.numericColNames.length > 1 ∧ ds.nrows > 1) := by
  intro kv hkv
  rw [generateVisualizations] at hkv
  simp only [List.mem_append] at hkv
  rcases hkv with ((h | h) | h) | h
  · obtain ⟨col, hcol, rfl⟩ := List.mem_map.mp h
    rw [List.mem_filter] at hcol
    refine ⟨?_, ?_, ?_, ?_⟩
    · rintro c n heq
      cases heq
      exact ⟨col, hcol.1, rfl, by simpa using hcol.2⟩
    · rintro c heq; cases heq
    · rintro c b heq; cases heq
    · rintro cs heq; cases heq
  · obtain ⟨col, hcol, rfl⟩ := List.mem_map.mp h
    rw [List.mem_filter] at hcol
    refine ⟨?_, ?_, ?_, ?_⟩
    · rintro c n heq; cases heq
    · rintro c heq
      cases heq
      have h2 := hcol.2
      simp only [Bool.and_eq_true, decide_eq_true_eq] at h2
      exact ⟨col, hcol.1, rfl, h2.1, h2.2⟩
    · rintro c b heq; cases heq
    · rintro cs heq; cases heq
  · obtain ⟨col, hcol, rfl⟩ := List.mem_map.mp h
    rw [List.mem_filter] at hcol
    refine ⟨?_, ?_, ?_, ?_⟩
    · rintro c n heq; cases heq
    · rintro c heq; cases heq
    · rintro c b heq
      cases heq
      exact ⟨col, hcol.1, rfl, by simpa using hcol.2⟩
    · rintro cs heq; cases heq
  · split at h
    · rename_i hguard
      simp only [List.mem_singleton] at h
      subst h
      refine ⟨?_, ?_, ?_, ?_⟩
      · rintro c n heq; cases heq
      · rintro c heq; cases heq
      · rintro c b heq; cases heq
      · rintro cs heq
        exact hguard
    · simp at h

/-- Example dataset for the C4 witness: two strictly varying numeric
columns. -/
def exC4colA : Column := ⟨"a", .int64, [some (.cInt 1), some (.cInt 2)]⟩

def exC4colB : Column := ⟨"b", .int64, [some (.cInt 2), some (.cInt 4)]⟩

def exC4ds2 : Dataset := ⟨[exC4colA, exC4colB]⟩

theorem claim_C4_viz_guards_witness :
    (("a_histogram", VizSpec.histogram "a" 30) ∈ generateVisualizations exC4ds2) ∧
    (∃ col ∈ exC4ds2.numericColsL, col.name = "a" ∧ col.nunique > 1) :=
  ⟨by decide,
   (claim_C4_viz_guards exC4ds2 ("a_histogram", VizSpec.histogram "a" 30) (by decide)).1
     "a" 30 rfl⟩

/-- The three sums Pearson correlation is built from, for one column pair:
`cov = Σ (x - x̄)(y - ȳ)`, `varx = Σ (x - x̄)²`, `vary = Σ (y - ȳ)²` over the
pairwise-complete observations.  The correlation itself is
`cov / sqrt (varx * vary)` (irrational in general), so comparisons and
rounding are carried out on these exact rational sums. -/
structure CorrVal where
  cov : ℚ
  varx : ℚ
  vary : ℚ
deriving DecidableEq, Repr

/-- Pairwise-complete observations of two columns (pandas `DataFrame.corr`
computes each pairwise correlation over the rows where both entries are
non-null). -/
def pairedVals (ci cj : Column) : List (ℚ × ℚ) :=
  (ci.cells.zip cj.cells).filterMap (fun ab =>
    match ab with
    | (some x, some y) => some (x.toRat, y.toRat)
    | _ => none)

/-- The correlation sums of one column pair. -/
def corrVal (ci cj : Column) : CorrVal :=
  let ps := pairedVals ci cj
  let mx := ratMean (ps.map Prod.fst)
  let my := ratMean (ps.map Prod.snd)
  { cov := ratSum (ps.map (fun p => (p.1 - mx) * (p.2 - my)))
    varx := ratSum (ps.map (fun p => (p.1 - mx) * (p.1 - mx)))
    vary := ratSum (ps.map (fun p => (p.2 - my) * (p.2 - my))) }

namespace CorrVal

/-- Mirrors `np.abs(corr) > 0.8` on the idealised rational correlation:
`|cov / sqrt (varx * vary)| > 0.8  ↔  cov² > 0.8² * varx * vary` (both sides
of the original comparison are nonnegative).  A NaN correlation (zero
variance on either side, which forces `cov = 0` as well) compares false,
exactly as NaN does under numpy. -/
def absGT08 (v : CorrVal) : Bool :=
  decide ((16 / 25 : ℚ) * (v.varx * v.vary) < v.cov * v.cov)

/-- Decides `corr ≤ q` for the idealised correlation `cov / sqrt d`
(`d = varx * vary`, positive in every context this is used in) by squaring:
for `q ≥ 0` it holds iff `cov ≤ 0` or `cov² ≤ q² d`; for `q < 0` it holds
iff `cov < 0` and `cov² ≥ q² d`. -/
def leQ (v : CorrVal) (q : ℚ) : Bool :=
  if 0 ≤ q then decide (v.cov ≤ 0) || decide (v.cov * v.cov ≤ q * q * (v.varx * v.vary))
  else decide (v.cov < 0) && decide (q * q * (v.varx * v.vary) ≤ v.cov * v.cov)

/-- Decides `corr = q` by squaring (sign match plus equal squares). -/
def eqQ (v : CorrVal) (q : ℚ) : Bool :=
  (decide (0 ≤ v.cov) == decide (0 ≤ q)) &&
    decide (v.cov * v.cov = q * q * (v.varx * v.vary))

end CorrVal

/-- Least `t ≥ start` within `fuel` steps with `p t = true`. -/
def findLeast (p : ℤ → Bool) : ℕ → ℤ → Option ℤ
  | 0, _ => none
  | fuel + 1, start => if p start then some start else findLeast p fuel (start + 1)

theorem findLeast_eq_some (p : ℤ → Bool) (k : ℕ) :
    ∀ s t : ℤ, s ≤ t → t < s + k → p t = true →
      (∀ u, s ≤ u → u < t → p u = false) → findLeast p k s = some t := by
  induction k with
  | zero => intro s t h1 h2 _ _; omega
  | succ k ih =>
      intro s t hst hk hp hmin
      rw [findLeast]
      by_cases hs : p s = true
      · rw [if_pos hs]
        have hset : s = t := by
          by_contra hne
          have := hmin s le_rfl (by omega)
          rw [this] at hs
          exact absurd hs (by simp)
        rw [hset]
      · rw [if_neg hs]
        have hne : s ≠ t := fun h => hs (h ▸ hp)
        exact ih (s + 1) t (by omega) (by omega) hp
          (fun u hu hut => hmin u (by omega) hut)

namespace CorrVal

/-- Whether the idealised correlation lies at or below the midpoint between
the hundredths `n` and `n + 1`. -/
def midLeQ (v : CorrVal) (n : ℤ) : Bool := v.leQ ((2 * (n : ℚ) + 1) / 200)

/-- The idealised correlation rounded to hundredths, as Python's `"%.2f"`
formatting does (round to nearest, ties to the even hundredth).  The scan is
over `[-100, 100]`; Cauchy–Schwarz keeps the correlation inside it. -/
def round2 (v : CorrVal) : ℤ :=
  let n := (findLeast v.midLeQ 201 (-100)).getD 100
  if v.eqQ ((2 * (n : ℚ) + 1) / 200) && !(n % 2 = 0) then n + 1 else n

end CorrVal

/-- Renders a signed number of hundredths the way Python's `"%.2f"` renders
the corresponding value (`100 ↦ "1.00"`, `-85 ↦ "-0.85"`). -/
def fmtFixed2 (n : ℤ) : String :=
  (if n < 0 then "-" else "") ++ toString (n.natAbs / 100) ++ "." ++
    (if n.natAbs % 100 < 10 then "0" else "") ++ toString (n.natAbs % 100)

/-- The text `f"{float(pair[2]):.2f}"` produces for the pair's correlation. -/
def CorrVal.fmt2 (v : CorrVal) : String := fmtFixed2 v.round2

/-- All index pairs of a `k`-column correlation matrix in row-major order
(the order `np.where` reports matching positions in). -/
def allPairs (k : ℕ) : List (ℕ × ℕ) :=
  (List.range k).flatMap (fun i => (List.range k).map (fun j => (i, j)))

/-- The first entry of `high_corr_pairs`: scanning the correlation matrix of
the numeric columns in row-major order, the first off-diagonal pair whose
correlation magnitude exceeds 0.8, together with the two column names. -/
def Dataset.firstHighPair (ds : Dataset) : Option (String × String × CorrVal) :=
  let cs := ds.numericColsL
  ((allPairs cs.length).filterMap (fun ij =>
    if ij.1 ≠ ij.2 then
      match cs[ij.1]?, cs[ij.2]? with
      | some ci, some cj =>
          let v := corrVal ci cj
          if v.absGT08 then some (ci.name, cj.name, v) else none
      | _, _ => none
    else none)).head?

/-- Whether `sub` occurs inside `s` (mirrors Python's `in` on strings). -/
def containsSub (s sub : String) : Bool := (s.splitOn sub).length ≠ 1

/-- Mirrors `str(x)` after `Series.astype(str)`: a missing entry renders as
the text pandas gives it (`"nan"`; the claims never inspect this text, only
whether some character is non-ASCII, and all missing-value renderings are
ASCII). -/
def astypeStr : Option CellVal → String
  | none => "nan"
  | some v => v.render

namespace Dataset

/-- Mirrors `any('text' in str(self.df[col].dtype).lower() for col in ...)`.
No pandas dtype of the modelled set renders with a `"text"` substring, so
this flag is constantly false on the modelled dtypes — kept faithful to the
code rather than simplified away. -/
def textFlag (ds : Dataset) : Bool :=
  ds.cols.any (fun c => containsSub c.dtype.render.toLower "text")

/-- Mirrors the per-column non-ASCII scan
`self.df[col].astype(str).str.contains('[^\x00-\x7F]').any()`. -/
def specialCharsFlag (ds : Dataset) : Bool :=
  ds.cols.any (fun c => c.cells.any (fun x =>
    (astypeStr x).toList.any (fun ch => ch.toNat > 127)))

/-- Mirrors `self.df.isna().sum().sum()`. -/
def totalMissing (ds : Dataset) : ℕ :=
  (ds.cols.map Column.isnaCount).foldr (· + ·) 0

/-- Mirrors `[col for col in self.df.columns if self.df[col].empty]`:
`Series.empty` is true exactly for a zero-length column. -/
def emptyColsCount (ds : Dataset) : ℕ :=
  (ds.cols.filter (fun c => c.cells.isEmpty)).length

end Dataset

/-- One sentence of `generate_summary`'s `summary_parts` list, carrying the
data the corresponding f-string embeds. -/
inductive Clause where
  | rowcol (rows cols : ℕ) : Clause
  | types (numericN categoricalN datetimeN : ℕ) : Clause
  | special (textF specialF : Bool) : Clause
  | missing (total : ℕ) : Clause
  | emptyCols (count : ℕ) : Clause
  | corr (colA colB : String) (v : CorrVal) : Clause
deriving DecidableEq, Repr

namespace Clause

/-- True for the correlation sentence. -/
def isCorr : Clause → Bool
  | .corr _ _ _ => true
  | _ => false

/-- The sentence text of each clause, mirroring the f-strings of
`generate_summary`. -/
def render : Clause → String
  | .rowcol r c =>
      "This dataset has " ++ toString r ++ " rows and " ++ toString c ++ " columns."
  | .types n c d =>
      "It contains " ++
        String.intercalate ", "
          ((if n > 0 then [toString n ++ " numeric columns"] else []) ++
           (if c > 0 then [toString c ++ " categorical columns"] else []) ++
           (if d > 0 then [toString d ++ " datetime columns"] else [])) ++ "."
  | .special t s =>
      "The dataset includes " ++
        String.intercalate " and "
          ((if t then ["text"] else []) ++ (if s then ["special characters"] else [])) ++
        " data."
  | .missing n =>
      "There are " ++ toString n ++ " missing values across all columns."
  | .emptyCols n =>
      "There are " ++ toString n ++ " empty columns."
  | .corr a b v =>
      "There is a strong correlation (" ++ v.fmt2 ++ ") between " ++ a ++ " and " ++ b ++ "."

end Clause

/-- The `summary_parts` list `generate_summary` builds, clause for clause:
the row/column sentence always; the type-count sentence when any of the
three classifier sets is non-empty; the special-content sentence when the
text or non-ASCII flag is set; the missing-value sentence when any cell is
null; the empty-column sentence when some column has zero length; and the
correlation sentence when more than one numeric column and more than one
row exist and some off-diagonal pair of the correlation matrix exceeds
magnitude 0.8 — reporting only the first such pair in row-major order. -/
def summaryClauses (ds : Dataset) : List Clause :=
  [Clause.rowcol ds.nrows ds.ncols]
  ++ (if ds.numericColsL.length > 0 ∨ ds.categoricalColsL.length > 0 ∨
        ds.datetimeColsL.length > 0 then
        [Clause.types ds.numericColsL.length ds.categoricalColsL.length
          ds.datetimeColsL.length]
      else [])
  ++ (if ds.textFlag || ds.specialCharsFlag then
        [Clause.special ds.textFlag ds.specialCharsFlag]
      else [])
  ++ (if ds.totalMissing > 0 then [Clause.missing ds.totalMissing] else [])
  ++ (if ds.emptyColsCount > 0 then [Clause.emptyCols ds.emptyColsCount] else [])
  ++ (if ds.numericColNames.length > 1 ∧ ds.nrows > 1 then
        match ds.firstHighPair with
        | some p => [Clause.corr p.1 p.2.1 p.2.2]
        | none => []
      else [])

/-- Mirrors `DataProfiler.generate_summary`: the clause texts joined by single
spaces. -/
def generateSummary (ds : Dataset) : String :=
  String.intercalate " " ((summaryClauses ds).map Clause.render)

/-- A perfectly positively correlated pair (`cov > 0`, `cov² = varx*vary`,
so `corr = 1` exactly) formats as `"1.00"`. -/
theorem CorrVal.fmt2_of_perfect (v : CorrVal) (hpos : 0 < v.cov)
    (heq : v.cov * v.cov = v.varx * v.vary) : v.fmt2 = "1.00" := by
  have hd : 0 < v.varx * v.vary := by nlinarith
  have hfl : findLeast v.midLeQ 201 (-100) = some 100 := by
    apply findLeast_eq_some
    · norm_num
    · norm_num
    · rw [CorrVal.midLeQ, CorrVal.leQ, if_pos (by norm_num)]
      simp only [Bool.or_eq_true, decide_eq_true_eq]
      right
      push_cast
      nlinarith
    · intro u hu hut
      rw [CorrVal.midLeQ, CorrVal.leQ]
      by_cases hq : (0 : ℚ) ≤ (2 * (u : ℚ) + 1) / 200
      · rw [if_pos hq]
        simp only [Bool.or_eq_false_iff, decide_eq_false_iff_not]
        have hu1 : (u : ℚ) ≤ 99 := by exact_mod_cast (by omega : u ≤ (99 : ℤ))
        have hlt : (2 * (u : ℚ) + 1) / 200 < 1 := by linarith
        have hq2 : ((2 * (u : ℚ) + 1) / 200) * ((2 * (u : ℚ) + 1) / 200) < 1 := by
          nlinarith [mul_pos (by linarith : (0 : ℚ) < 1 - (2 * (u : ℚ) + 1) / 200)
            (by linarith : (0 : ℚ) < 1 + (2 * (u : ℚ) + 1) / 200)]
        constructor
        · linarith
        · nlinarith [mul_lt_mul_of_pos_right hq2 hd]
      · rw [if_neg hq]
        have h1 : ¬ v.cov < 0 := by linarith
        simp [h1]
  have hne : v.cov * v.cov ≠
      ((2 * ((100 : ℤ) : ℚ) + 1) / 200) * ((2 * ((100 : ℤ) : ℚ) + 1) / 200) *
        (v.varx * v.vary) := by
    push_cast
    nlinarith
  have heqQ : v.eqQ ((2 * ((100 : ℤ) : ℚ) + 1) / 200) = false := by
    rw [CorrVal.eqQ, decide_eq_false hne, Bool.and_false]
  rw [CorrVal.fmt2, CorrVal.round2, hfl]
  simp only [Option.getD_some, heqQ, Bool.false_and]
  decide

/-- The correlation sentence can only come from the final segment of
`summary_parts`. -/
theorem filter_isCorr_summaryClauses (ds : Dataset) :
    (summaryClauses ds).filter Clause.isCorr =
      (if ds.numericColNames.length > 1 ∧ ds.nrows > 1 then
        match ds.firstHighPair with
        | some p => [Clause.corr p.1 p.2.1 p.2.2]
        | none => []
      else []).filter Clause.isCorr := by
  rw [summaryClauses]
  simp only [List.filter_append, List.filter_cons, List.filter_nil, Clause.isCorr]
  split_ifs <;> simp_all [Clause.isCorr]

/-- C9: the summary contains a correlation sentence exactly when more than
one numeric-classified column and more than one row exist and the row-major
scan of the correlation matrix finds an off-diagonal pair of magnitude
above 0.8 — in which case it contains exactly one such sentence, for the
first qualifying pair; and when the reported pair is perfectly positively
correlated, the sentence renders the correlation as `"1.00"`. -/
theorem claim_C9_summary_correlation (ds : Dataset) :
    (ds.numericColNames.length > 1 ∧ ds.nrows > 1 →
      ∀ p, ds.firstHighPair = some p →
        (summaryClauses ds).filter Clause.isCorr = [Clause.corr p.1 p.2.1 p.2.2]) ∧
    (ds.numericColNames.length ≤ 1 ∨ ds.nrows ≤ 1 ∨ ds.firstHighPair = none →
      (summaryClauses ds).filter Clause.isCorr = []) ∧
    (∀ a b v, Clause.corr a b v ∈ summaryClauses ds → 0 < v.cov →
      v.cov * v.cov = v.varx * v.vary →
      (Clause.corr a b v).render =
        "There is a strong correlation (" ++ "1.00" ++ ") between " ++ a ++
          " and " ++ b ++ ".") := by
  refine ⟨?_, ?_, ?_⟩
  · intro hg p hp
    rw [filter_isCorr_summaryClauses, if_pos hg, hp]
    simp [Clause.isCorr]
  · intro h
    rw [filter_isCorr_summaryClauses]
    rcases h with h | h | h
    · rw [if_neg (by omega)]
      simp
    · rw [if_neg (by omega)]
      simp
    · by_cases hg : ds.numericColNames.length > 1 ∧ ds.nrows > 1
      · rw [if_pos hg, h]
        simp
      · rw [if_neg hg]
        simp
  · intro a b v _ hpos heq
    rw [Clause.render, CorrVal.fmt2_of_perfect v hpos heq]

/-- Example dataset for the C9 witness: two identical, strictly increasing
integer columns (pairwise correlation exactly 1, the spec's end-to-end
example 3). -/
def exC9a : Column := ⟨"a", .int64, [some (.cInt 1), some (.cInt 3)]⟩

def exC9b : Column := ⟨"b", .int64, [some (.cInt 1), some (.cInt 3)]⟩

def exC9ds : Dataset := ⟨[exC9a, exC9b]⟩

theorem exC9_firstHighPair : exC9ds.firstHighPair = some ("a", "b", ⟨2, 2, 2⟩) := by
  have hcv : corrVal exC9a exC9b = ⟨2, 2, 2⟩ := by
    have h : pairedVals exC9a exC9b = [(1, 1), (3, 3)] := by
      simp [pairedVals, exC9a, exC9b, CellVal.toRat, List.zip]
    rw [corrVal, h]
    norm_num [ratMean, ratSum]
  have habs : (corrVal exC9a exC9b).absGT08 = true := by
    rw [hcv]
    norm_num [CorrVal.absGT08]
  have habs2 : (⟨2, 2, 2⟩ : CorrVal).absGT08 = true := by
    norm_num [CorrVal.absGT08]
  have hnc : exC9ds.numericColsL = [exC9a, exC9b] := by decide
  rw [Dataset.firstHighPair, hnc]
  have hap : allPairs ([exC9a, exC9b] : List Column).length =
      [(0, 0), (0, 1), (1, 0), (1, 1)] := by decide
  rw [hap]
  have h0 : ([exC9a, exC9b] : List Column)[0]? = some exC9a := rfl
  have h1 : ([exC9a, exC9b] : List Column)[1]? = some exC9b := rfl
  have hna : exC9a.name = "a" := rfl
  have hnb : exC9b.name = "b" := rfl
  simp [List.filterMap_cons, List.filterMap_nil, h0, h1, habs, habs2, hcv, hna, hnb]

theorem claim_C9_summary_correlation_witness :
    (exC9ds.numericColNames.length > 1 ∧ exC9ds.nrows > 1) ∧
    exC9ds.firstHighPair = some ("a", "b", ⟨2, 2, 2⟩) ∧
    (summaryClauses exC9ds).filter Clause.isCorr = [Clause.corr "a" "b" ⟨2, 2, 2⟩] ∧
    (0 : ℚ) < (2 : ℚ) ∧ (2 : ℚ) * 2 = 2 * 2 ∧
    (Clause.corr "a" "b" (⟨2, 2, 2⟩ : CorrVal)).render =
      "There is a strong correlation (" ++ "1.00" ++ ") between " ++ "a" ++
        " and " ++ "b" ++ "." := by
  have hfilter := (claim_C9_summary_correlation exC9ds).1 ⟨by decide, by decide⟩
    ("a", "b", ⟨2, 2, 2⟩) exC9_firstHighPair
  refine ⟨⟨by decide, by decide⟩, exC9_firstHighPair, hfilter, by norm_num, by norm_num, ?_⟩
  have hmem : Clause.corr "a" "b" ⟨2, 2, 2⟩ ∈ summaryClauses exC9ds := by
    have h : Clause.corr "a" "b" (⟨2, 2, 2⟩ : CorrVal) ∈
        (summaryClauses exC9ds).filter Clause.isCorr := by
      rw [hfilter]
      exact List.mem_singleton_self _
    exact List.mem_of_mem_filter h
  exact (claim_C9_summary_correlation exC9ds).2.2 "a" "b" ⟨2, 2, 2⟩ hmem
    (by norm_num) (by norm_num)

/-- An empty-column sentence appears in the summary exactly when the
empty-column count is positive, and then it carries that count. -/
theorem mem_summaryClauses_emptyCols (ds : Dataset) (n : ℕ) :
    Clause.emptyCols n ∈ summaryClauses ds ↔
      (0 < ds.emptyColsCount ∧ n = ds.emptyColsCount) := by
  rw [summaryClauses]
  rcases hfp : ds.firstHighPair with _ | p <;>
    split_ifs <;> simp_all [List.mem_append]

/-- C10: under the shared row count, the `Series.empty` test used by the
empty-column clause is equivalent to the dataset having zero rows, so the
clause appears exactly when the dataset has zero rows and at least one
column — and then it counts every column; with at least one row the clause
never appears, no matter how many values are null. -/
theorem claim_C10_empty_columns_clause (ds : Dataset) (hlen : ds.sameLen) :
    ((∃ n, Clause.emptyCols n ∈ summaryClauses ds) ↔ (ds.nrows = 0 ∧ 0 < ds.ncols)) ∧
    (∀ n, Clause.emptyCols n ∈ summaryClauses ds → n = ds.ncols) := by
  have hcount : ds.emptyColsCount = if ds.nrows = 0 then ds.ncols else 0 := by
    rw [Dataset.emptyColsCount]
    split
    · rename_i h0
      have hall : ∀ c ∈ ds.cols, c.cells.isEmpty = true := by
        intro c hc
        have hl := hlen c hc
        rw [h0] at hl
        simpa [List.isEmpty_iff] using List.length_eq_zero.mp hl
      rw [List.filter_eq_self.mpr hall]
      rfl
    · rename_i h0
      have hnone : ∀ c ∈ ds.cols, ¬ (c.cells.isEmpty = true) := by
        intro c hc hemp
        rw [List.isEmpty_iff] at hemp
        have hl := hlen c hc
        rw [hemp] at hl
        exact h0 hl.symm
      rw [List.length_eq_zero.mpr (List.filter_eq_nil_iff.mpr hnone)]
  constructor
  · constructor
    · rintro ⟨n, hn⟩
      rw [mem_summaryClauses_emptyCols] at hn
      rcases hn with ⟨hpos, rfl⟩
      rw [hcount] at hpos
      by_cases h0 : ds.nrows = 0
      · refine ⟨h0, ?_⟩
        rw [if_pos h0] at hpos
        exact hpos
      · rw [if_neg h0] at hpos
        omega
    · rintro ⟨h0, hc⟩
      refine ⟨ds.ncols, (mem_summaryClauses_emptyCols ds _).mpr ?_⟩
      rw [hcount, if_pos h0]
      exact ⟨hc, rfl⟩
  · intro n hn
    rw [mem_summaryClauses_emptyCols] at hn
    rcases hn with ⟨hpos, rfl⟩
    rw [hcount] at hpos ⊢
    by_cases h0 : ds.nrows = 0
    · rw [if_pos h0]
    · rw [if_neg h0] at hpos
      omega

/-- Example dataset for the C10 witness: two zero-row columns. -/
def exC10ds : Dataset :=
  ⟨[⟨"p", .object, []⟩, ⟨"q", .float64, []⟩]⟩

theorem claim_C10_empty_columns_clause_witness :
    exC10ds.sameLen ∧ exC10ds.nrows = 0 ∧ 0 < exC10ds.ncols ∧
    (∃ n, Clause.emptyCols n ∈ summaryClauses exC10ds) ∧
    (∀ n, Clause.emptyCols n ∈ summaryClauses exC10ds → n = exC10ds.ncols) := by
  have h := claim_C10_empty_columns_clause exC10ds (by decide)
  exact ⟨by decide, by decide, by decide, h.1.mpr ⟨by decide, by decide⟩, h.2⟩
